import Mathlib

/-!
Verification of the authentication and session core of the contact-management
API (routes `src/src/routes/auth.py`, service `src/src/services/auth.py`,
entity `src/src/entity/models.py`).

Tokens are modelled as structured values: a well-formed JWT is the signing key
together with its payload, and anything else is an opaque malformed blob.
`jwt.encode`/`jwt.decode` of the `jose` library become `Token.signed` and
`jwtDecode`; `jose` distinguishes malformed tokens, bad signatures and expired
tokens as separate exception classes (all subclasses of `JWTError`), which the
`JoseError` type records.  Python exceptions escaping a route become `Err`
values; an attribute access on `None` (Python `AttributeError`) is made
explicit as `Err.noneAttribute`.

The User Directory accessors live in `src/src/repository/users.py`, which is
not part of the sources at hand; they are modelled from the spec (section 6,
External Interfaces) as operations on a list of user records.
-/

/-- The exception kinds raised by `jose.jwt.decode`: `JWTError` for a
malformed token or a bad signature, `ExpiredSignatureError` (a subclass of
`JWTError`) when the `exp` claim is in the past. -/
inductive JoseError where
  | malformed
  | badSignature
  | expired
deriving DecidableEq, Repr

/-- A JWT payload: the `sub` claim, any further application claims (such as
the `"test"` claim added at login), `iat`, `exp` and `scope`.  A `none` field
models the claim being absent from the encoded dictionary. -/
structure Payload where
  sub : Option String
  extra : List (String × String)
  iat : Option Int
  exp : Option Int
  scope : Option String
deriving DecidableEq, Repr

/-- An encoded bearer string: either a well-formed JWT carrying the key it was
signed with and its payload, or a malformed blob. -/
inductive Token where
  | signed (key : String) (payload : Payload)
  | garbage (raw : String)
deriving DecidableEq, Repr

/-- The process-wide signing secret `config.SECRET_KEY_JWT`. -/
def SECRET_KEY : String := "SECRET_KEY_JWT"

/-- The expiry test of `jose.jwt.decode`: with zero leeway the token is
rejected exactly when `exp < now`; a payload without `exp` is not checked. -/
def expCheck (p : Payload) (now : Int) : Bool :=
  match p.exp with
  | some e => decide (e < now)
  | none => false

/-- `jose.jwt.decode(token, key, algorithms)`: signature verification first,
then claim validation (expiry). -/
def jwtDecode (key : String) (token : Token) (now : Int) : Except JoseError Payload :=
  match token with
  | Token.garbage _ => Except.error JoseError.malformed
  | Token.signed k p =>
    if k = key then
      if expCheck p now then Except.error JoseError.expired else Except.ok p
    else Except.error JoseError.badSignature

/-- Outcomes of a route-level failure: an `HTTPException(code, detail)`, a
Python `KeyError` on a missing payload key, a Python `AttributeError` from
dereferencing `None`, or a `redis` connection error — only the first is a
controlled HTTP response, the others propagate unhandled. -/
inductive Err where
  | http (code : Nat) (detail : String)
  | keyError (key : String)
  | noneAttribute (attr : String)
  | redisConnection
deriving DecidableEq, Repr

/-- `Auth.create_access_token(data, expires_delta)` at the instant `now`:
copies `data`, overwrites `iat`, `exp` and `scope`, signs.  Python's
`if expires_delta:` is truthiness, so `0` falls back to the 15-minute
(900-second) default. -/
def create_access_token (data : Payload) (expires_delta : Option Int) (now : Int) : Token :=
  let expire : Int :=
    match expires_delta with
    | some d => if d = 0 then now + 900 else now + d
    | none => now + 900
  Token.signed SECRET_KEY
    { data with iat := some now, exp := some expire, scope := some "access_token" }

/-- `Auth.create_refresh_token(data, expires_delta)` at the instant `now`:
like the access variant but with scope `"refresh_token"` and a 7-day
(604800-second) default lifetime. -/
def create_refresh_token (data : Payload) (expires_delta : Option Int) (now : Int) : Token :=
  let expire : Int :=
    match expires_delta with
    | some d => if d = 0 then now + 604800 else now + d
    | none => now + 604800
  Token.signed SECRET_KEY
    { data with iat := some now, exp := some expire, scope := some "refresh_token" }

/-- `Auth.decode_refresh_token`: any `JWTError` (malformed, bad signature or
expired alike) is caught and turned into `401 "Could not validate
credentials"`; a decoded payload whose scope is not `"refresh_token"` raises
`401 "Invalid scope for token"`; a missing `scope` or `sub` key raises an
uncaught `KeyError`. -/
def decode_refresh_token (token : Token) (now : Int) : Except Err String :=
  match jwtDecode SECRET_KEY token now with
  | Except.error _ => Except.error (Err.http 401 "Could not validate credentials")
  | Except.ok payload =>
    match payload.scope with
    | none => Except.error (Err.keyError "scope")
    | some sc =>
      if sc = "refresh_token" then
        match payload.sub with
        | none => Except.error (Err.keyError "sub")
        | some email => Except.ok email
      else Except.error (Err.http 401 "Invalid scope for token")

/-- A user record (`src/src/entity/models.py`, class `User`); only the fields
the auth core reads or writes are carried.  The stored refresh token is the
encoded bearer string or `NULL`. -/
structure User where
  id : Nat
  username : String
  email : String
  password : String
  avatar : Option String
  refresh_token : Option Token
  confirmed : Bool
deriving DecidableEq, Repr

/-- Modelled from the spec: `src/src/repository/users.py` is absent from the
sources; section 6 gives `findByEmail(email) -> UserIdentity | none`.  The
directory is a list of records and lookup returns the first match. -/
def get_user_by_email (email : String) (db : List User) : Option User :=
  db.find? (fun u => u.email == email)

/-- Modelled from the spec: section 6 gives
`updateRefreshToken(email, token|none)`; the matching record's stored refresh
token is replaced. -/
def update_token (user : User) (token : Option Token) (db : List User) : List User :=
  db.map (fun u => if u.email == user.email then { u with refresh_token := token } else u)

/-- Modelled from the spec: section 6 gives `updateConfirmed(email, true)`;
the matching record's confirmed flag is set. -/
def confirmed_email (email : String) (db : List User) : List User :=
  db.map (fun u => if u.email == email then { u with confirmed := true } else u)

/-- The Session Cache: `none` models the redis server being unreachable (every
command raises a connection error), `some m` a reachable cache holding the
entries of `m`. -/
abbrev Cache := Option (List (String × User))

/-- Lookup in a reachable cache's entries (`redis get` of a present
connection); newest entry first, mirroring overwrite-on-set. -/
def cacheLookup (m : List (String × User)) (key : String) : Option User :=
  (m.find? (fun p => p.1 == key)).map (fun p => p.2)

/-- `redis set` (with the 300-second expire) on a reachable cache: the entry
is overwritten. -/
def cachePut (m : List (String × User)) (key : String) (u : User) : List (String × User) :=
  (key, u) :: m.filter (fun p => !(p.1 == key))

/-- The `credentials_exception` of `Auth.get_current_user`. -/
def credentials_exception : Err := Err.http 401 "Could not validate credentials"

/-- `Auth.get_current_user(token)`: decode with the access scope — every
decode failure (malformed, bad signature, expired, wrong scope) raises the
one `credentials_exception`; then the cache is consulted (a `redis` error on
an unreachable cache propagates uncaught), on a miss the directory is read
(`credentials_exception` if the account is gone) and the cache populated.
Returns the resolved user together with the cache state after the call.
A JSON-null `sub` (present but `None`) is not modelled; an absent `sub` or
`scope` key raises a `KeyError` as in the source. -/
def get_current_user (token : Token) (now : Int) (cache : Cache) (db : List User) :
    Except Err (User × Cache) :=
  match jwtDecode SECRET_KEY token now with
  | Except.error _ => Except.error credentials_exception
  | Except.ok payload =>
    match payload.scope with
    | none => Except.error (Err.keyError "scope")
    | some sc =>
      if sc = "access_token" then
        match payload.sub with
        | none => Except.error (Err.keyError "sub")
        | some email =>
          match cache with
          | none => Except.error Err.redisConnection
          | some m =>
            match cacheLookup m email with
            | none =>
              match get_user_by_email email db with
              | none => Except.error credentials_exception
              | some user => Except.ok (user, some (cachePut m email user))
            | some cached => Except.ok (cached, some m)
      else Except.error credentials_exception

/-- `Auth.get_email_from_token`: scope-less decode for email-confirmation
links; a `JWTError` becomes `422 "Invalid token for email verification"`, a
missing `sub` key an uncaught `KeyError`. -/
def get_email_from_token (token : Token) (now : Int) : Except Err String :=
  match jwtDecode SECRET_KEY token now with
  | Except.error _ => Except.error (Err.http 422 "Invalid token for email verification")
  | Except.ok payload =>
    match payload.sub with
    | none => Except.error (Err.keyError "sub")
    | some email => Except.ok email

/-- The `login` route: existence, then confirmation, then password — each
failure a distinct 401 detail.  `verify` stands for
`auth_service.verify_password` (the bcrypt check).  On success the pair is
issued (the access token carries the extra `"test"` claim of the source) and
the new refresh token persisted.  Returns the tokens and the directory after
the call. -/
def login (username password : String) (verify : String → String → Bool)
    (now : Int) (db : List User) : Except Err (Token × Token × List User) :=
  match get_user_by_email username db with
  | none => Except.error (Err.http 401 "Invalid email")
  | some user =>
    if !user.confirmed then Except.error (Err.http 401 "Email not confirmed")
    else if !(verify password user.password) then
      Except.error (Err.http 401 "Invalid password")
    else
      let access := create_access_token
        (Payload.mk (some user.email) [("test", "Сергій Багмет")] none none none) none now
      let refresh := create_refresh_token
        (Payload.mk (some user.email) [] none none none) none now
      Except.ok (access, refresh, update_token user (some refresh) db)

/-- The `refresh_token` route: decode the presented refresh token, look the
subject up (a missing record makes `user.refresh_token` an attribute access
on `None` — an uncaught `AttributeError`), compare the presented string to
the stored one: mismatch clears the stored token and raises
`401 "Invalid refresh token"`; match rotates the pair and persists the new
refresh token.  Returns the outcome together with the directory after the
call. -/
def refresh_token_route (token : Token) (now : Int) (db : List User) :
    Except Err (Token × Token) × List User :=
  match decode_refresh_token token now with
  | Except.error e => (Except.error e, db)
  | Except.ok email =>
    match get_user_by_email email db with
    | none => (Except.error (Err.noneAttribute "refresh_token"), db)
    | some user =>
      if user.refresh_token = some token then
        let access := create_access_token (Payload.mk (some email) [] none none none) none now
        let refresh := create_refresh_token (Payload.mk (some email) [] none none none) none now
        (Except.ok (access, refresh), update_token user (some refresh) db)
      else
        (Except.error (Err.http 401 "Invalid refresh token"), update_token user none db)

/-- The `confirmed_email` route: decode the confirmation token, `400
"Verification error"` if the subject's account does not exist, an idempotent
message if already confirmed, otherwise persist `confirmed = true`.  Returns
the outcome together with the directory after the call. -/
def confirmed_email_route (token : Token) (now : Int) (db : List User) :
    Except Err String × List User :=
  match get_email_from_token token now with
  | Except.error e => (Except.error e, db)
  | Except.ok email =>
    match get_user_by_email email db with
    | none => (Except.error (Err.http 400 "Verification error"), db)
    | some user =>
      if user.confirmed then (Except.ok "Your email is already confirmed", db)
      else (Except.ok "Email confirmed", confirmed_email email db)

/-- The `request_email` route: the source tests `user.confirmed` before
`if user`, so an absent account is an attribute access on `None` — an
uncaught `AttributeError`.  The boolean records whether the confirmation
email task was enqueued. -/
def request_email_route (email : String) (db : List User) : Except Err (String × Bool) :=
  match get_user_by_email email db with
  | none => Except.error (Err.noneAttribute "confirmed")
  | some user =>
    if user.confirmed then Except.ok ("Your email is already confirmed", false)
    else Except.ok ("Check your email for confirmation.", true)

/-- Lookup by email commutes with an email-preserving per-record update of the
directory. -/
theorem get_user_by_email_map (g : User → User) (hg : ∀ u, (g u).email = u.email)
    (e : String) (db : List User) :
    get_user_by_email e (db.map g) = (get_user_by_email e db).map g := by
  unfold get_user_by_email
  have hp : ((fun u : User => u.email == e) ∘ g) = (fun u : User => u.email == e) := by
    funext u
    simp [Function.comp, hg]
  rw [List.find?_map, hp]

/-- A successful lookup returns a record carrying the looked-up email. -/
theorem get_user_by_email_eq (e : String) (db : List User) (u : User)
    (h : get_user_by_email e db = some u) : u.email = e := by
  unfold get_user_by_email at h
  have := List.find?_some h
  simpa using this

/-- C6: the codec round-trips: a token issued from any claim set with a
positive ttl, decoded with the matching expected scope before expiry,
succeeds and returns the original claims unchanged (the `sub` and the
application claims are preserved; `decode_refresh_token` hands back the
original subject). -/
theorem token_codec_round_trip (data : Payload) (email : String) (T now t : Int)
    (hsub : data.sub = some email) (hT : 0 < T) (ht : t ≤ now + T) :
    decode_refresh_token (create_refresh_token data (some T) now) t = Except.ok email ∧
    jwtDecode SECRET_KEY (create_refresh_token data (some T) now) t =
      Except.ok (Payload.mk data.sub data.extra (some now) (some (now + T))
        (some "refresh_token")) ∧
    jwtDecode SECRET_KEY (create_access_token data (some T) now) t =
      Except.ok (Payload.mk data.sub data.extra (some now) (some (now + T))
        (some "access_token")) := by
  obtain ⟨s, ex, i, e, sc⟩ := data
  simp only at hsub
  subst hsub
  have hT0 : T ≠ 0 := by omega
  have hlt : ¬ (now + T < t) := by omega
  refine ⟨?_, ?_, ?_⟩ <;>
    simp [decode_refresh_token, create_refresh_token, create_access_token, jwtDecode,
      expCheck, hT0, hlt]

theorem token_codec_round_trip_witness :
    decode_refresh_token
      (create_refresh_token (Payload.mk (some "a@b.c") [] none none none) (some 60) 0) 10 =
      Except.ok "a@b.c" :=
  (token_codec_round_trip (Payload.mk (some "a@b.c") [] none none none) "a@b.c" 60 0 10
    rfl (by decide) (by decide)).1

/-- C7: a refresh token issued with `expires_delta = -1` carries an `exp` in
the past, so every decode at or after issuance fails, and the failure is the
expiry kind at the codec level (`ExpiredSignatureError`), not the
malformed/bad-signature or wrong-scope kind; `decode_refresh_token` then
surfaces it as the 401. -/
theorem expired_ttl_fails_with_expiry_kind (data : Payload) (now t : Int) (ht : now ≤ t) :
    jwtDecode SECRET_KEY (create_refresh_token data (some (-1)) now) t =
      Except.error JoseError.expired ∧
    decode_refresh_token (create_refresh_token data (some (-1)) now) t =
      Except.error (Err.http 401 "Could not validate credentials") := by
  have h : now + (-1) < t := by omega
  constructor <;>
    simp [create_refresh_token, decode_refresh_token, jwtDecode, expCheck, h]

theorem expired_ttl_fails_with_expiry_kind_witness :
    jwtDecode SECRET_KEY
      (create_refresh_token (Payload.mk (some "a@b.c") [] none none none) (some (-1)) 5) 5 =
      Except.error JoseError.expired :=
  (expired_ttl_fails_with_expiry_kind (Payload.mk (some "a@b.c") [] none none none) 5 5
    (by decide)).1

/-- C4: every decode failure of the bearer access token — malformed token,
bad signature, expired token, or a valid token with the wrong scope — makes
`get_current_user` fail with the one `401 "Could not validate credentials"`,
whatever the cache and directory state, so the caller cannot tell the
internal failure kinds apart. -/
theorem get_current_user_uniform_failure (token : Token) (now : Int)
    (h : (∃ err, jwtDecode SECRET_KEY token now = Except.error err) ∨
      (∃ p s, jwtDecode SECRET_KEY token now = Except.ok p ∧ p.scope = some s ∧
        s ≠ "access_token")) :
    ∀ cache db, get_current_user token now cache db =
      Except.error (Err.http 401 "Could not validate credentials") := by
  intro cache db
  rcases h with ⟨err, herr⟩ | ⟨p, s, hp, hs, hne⟩
  · simp [get_current_user, herr, credentials_exception]
  · simp [get_current_user, hp, hs, hne, credentials_exception]

theorem get_current_user_uniform_failure_witness :
    get_current_user (Token.garbage "zz") 0 (some []) [] =
      Except.error (Err.http 401 "Could not validate credentials") :=
  get_current_user_uniform_failure (Token.garbage "zz") 0
    (Or.inl ⟨JoseError.malformed, rfl⟩) (some []) []

/-- C5: the login checks run existence → confirmed → password: an unknown
email fails with `Invalid email`; an existing but unconfirmed account fails
with `Email not confirmed` for every possible password verifier, so password
verification is never consulted; a confirmed account with a failing
verification fails with `Invalid password`. -/
theorem login_check_ordering (username password : String) (now : Int) (db : List User) :
    (get_user_by_email username db = none →
      ∀ verify, login username password verify now db =
        Except.error (Err.http 401 "Invalid email")) ∧
    (∀ user, get_user_by_email username db = some user → user.confirmed = false →
      ∀ verify, login username password verify now db =
        Except.error (Err.http 401 "Email not confirmed")) ∧
    (∀ user, get_user_by_email username db = some user → user.confirmed = true →
      ∀ verify, verify password user.password = false →
        login username password verify now db =
          Except.error (Err.http 401 "Invalid password")) := by
  refine ⟨?_, ?_, ?_⟩
  · intro h verify
    simp [login, h]
  · intro user h hc verify
    simp [login, h, hc]
  · intro user h hc verify hv
    simp [login, h, hc, hv]

theorem login_check_ordering_witness :
    login "a@b.c" "pw" (fun _ _ => true) 0
      [User.mk 1 "alice" "a@b.c" "hash" none none false] =
      Except.error (Err.http 401 "Email not confirmed") :=
  (login_check_ordering "a@b.c" "pw" 0
      [User.mk 1 "alice" "a@b.c" "hash" none none false]).2.1
    (User.mk 1 "alice" "a@b.c" "hash" none none false) rfl rfl (fun _ _ => true)

/-- C2 counterexample: a malformed blob and an expired well-signed refresh
token fail at the codec level with two different kinds (`malformed` vs
`expired`), yet `decode_refresh_token` gives the caller the identical
outcome for both, so the Expired kind is not distinguishable from the
BadSignature/Malformed kind by the caller. -/
theorem decode_kinds_not_three_way_distinguishable :
    jwtDecode SECRET_KEY (Token.garbage "xx") 0 = Except.error JoseError.malformed ∧
    jwtDecode SECRET_KEY
      (Token.signed SECRET_KEY
        (Payload.mk (some "a@b.c") [] (some (-10)) (some (-1)) (some "refresh_token"))) 0 =
      Except.error JoseError.expired ∧
    decode_refresh_token (Token.garbage "xx") 0 =
      decode_refresh_token
        (Token.signed SECRET_KEY
          (Payload.mk (some "a@b.c") [] (some (-10)) (some (-1)) (some "refresh_token"))) 0 :=
  ⟨rfl, rfl, rfl⟩

/-- C2 amended: decode with an expected scope exposes exactly two failure
kinds to its caller: every codec-level error — malformed, bad signature or
expired alike — becomes `401 "Could not validate credentials"`, while a
valid, unexpired token of the wrong scope becomes the distinct
`401 "Invalid scope for token"`; the expired kind is not separated from the
malformed/bad-signature kind. -/
theorem decode_refresh_token_two_failure_kinds (token : Token) (now : Int) :
    (∀ err, jwtDecode SECRET_KEY token now = Except.error err →
      decode_refresh_token token now =
        Except.error (Err.http 401 "Could not validate credentials")) ∧
    (∀ p s, jwtDecode SECRET_KEY token now = Except.ok p → p.scope = some s →
      s ≠ "refresh_token" →
      decode_refresh_token token now =
        Except.error (Err.http 401 "Invalid scope for token")) := by
  constructor
  · intro err herr
    simp [decode_refresh_token, herr]
  · intro p s hp hs hne
    simp [decode_refresh_token, hp, hs, hne]

theorem decode_refresh_token_two_failure_kinds_witness :
    decode_refresh_token (Token.garbage "xx") 0 =
      Except.error (Err.http 401 "Could not validate credentials") ∧
    decode_refresh_token
      (Token.signed SECRET_KEY
        (Payload.mk (some "a@b.c") [] (some 0) (some 100) (some "access_token"))) 0 =
      Except.error (Err.http 401 "Invalid scope for token") :=
  ⟨(decode_refresh_token_two_failure_kinds (Token.garbage "xx") 0).1
      JoseError.malformed rfl,
   (decode_refresh_token_two_failure_kinds
      (Token.signed SECRET_KEY
        (Payload.mk (some "a@b.c") [] (some 0) (some 100) (some "access_token"))) 0).2
      (Payload.mk (some "a@b.c") [] (some 0) (some 100) (some "access_token"))
      "access_token" rfl rfl (by decide)⟩

/-- C3 counterexample: with a valid access token whose subject exists in the
directory but the cache unreachable, `get_current_user` does not fall back to
the directory — the uncaught `redis` connection error escapes, so resolution
does not return the user's identity. -/
theorem cache_unreachable_resolution_error :
    get_current_user
      (Token.signed SECRET_KEY
        (Payload.mk (some "a@b.c") [] (some 0) (some 100) (some "access_token"))) 0 none
      [User.mk 1 "alice" "a@b.c" "hash" none none true] =
      Except.error Err.redisConnection :=
  rfl

/-- C3 amended: when the cache is reachable, resolution of a valid access
token of an existing user silently falls back to the directory on a cache
miss (and populates the cache); but when the cache is unreachable, the
connection error propagates uncaught — resolution does not degrade to the
directory, though the escaping error is not the Unauthorized
credentials failure either. -/
theorem cache_miss_falls_back_unreachable_does_not (p : Payload) (email : String)
    (user : User) (m : List (String × User)) (db : List User) (now : Int)
    (hsub : p.sub = some email) (hscope : p.scope = some "access_token")
    (hexp : expCheck p now = false)
    (hmiss : cacheLookup m email = none)
    (huser : get_user_by_email email db = some user) :
    get_current_user (Token.signed SECRET_KEY p) now (some m) db =
      Except.ok (user, some (cachePut m email user)) ∧
    get_current_user (Token.signed SECRET_KEY p) now none db =
      Except.error Err.redisConnection ∧
    Err.redisConnection ≠ credentials_exception := by
  refine ⟨?_, ?_, ?_⟩ <;>
    simp [get_current_user, jwtDecode, hexp, hscope, hsub, hmiss, huser,
      credentials_exception]

theorem cache_miss_falls_back_unreachable_does_not_witness :
    get_current_user
      (Token.signed SECRET_KEY
        (Payload.mk (some "a@b.c") [] (some 0) (some 100) (some "access_token"))) 0
      (some []) [User.mk 1 "alice" "a@b.c" "hash" none none true] =
      Except.ok (User.mk 1 "alice" "a@b.c" "hash" none none true,
        some (cachePut [] "a@b.c" (User.mk 1 "alice" "a@b.c" "hash" none none true))) :=
  (cache_miss_falls_back_unreachable_does_not
      (Payload.mk (some "a@b.c") [] (some 0) (some 100) (some "access_token")) "a@b.c"
      (User.mk 1 "alice" "a@b.c" "hash" none none true) [] 
      [User.mk 1 "alice" "a@b.c" "hash" none none true] 0
      rfl rfl rfl rfl rfl).1

/-- C8: the confirmation route fails with `400 "Verification error"` when the
decoded subject has no account; returns the idempotent already-confirmed
message with the directory unchanged when the account is confirmed; and
otherwise returns the confirmed message with `confirmed = true` persisted on
the account. -/
theorem confirmed_email_contract (token : Token) (now : Int) (db : List User)
    (email : String) (hdec : get_email_from_token token now = Except.ok email) :
    (get_user_by_email email db = none →
      confirmed_email_route token now db =
        (Except.error (Err.http 400 "Verification error"), db)) ∧
    (∀ user, get_user_by_email email db = some user → user.confirmed = true →
      confirmed_email_route token now db =
        (Except.ok "Your email is already confirmed", db)) ∧
    (∀ user, get_user_by_email email db = some user → user.confirmed = false →
      confirmed_email_route token now db =
        (Except.ok "Email confirmed", confirmed_email email db) ∧
      get_user_by_email email (confirmed_email email db) =
        some { user with confirmed := true }) := by
  refine ⟨?_, ?_, ?_⟩
  · intro h
    simp [confirmed_email_route, hdec, h]
  · intro user h hc
    simp [confirmed_email_route, hdec, h, hc]
  · intro user h hc
    refine ⟨by simp [confirmed_email_route, hdec, h, hc], ?_⟩
    have hmap := get_user_by_email_map
      (fun u => if u.email == email then { u with confirmed := true } else u)
      (fun u => by dsimp only; split <;> rfl) email db
    have hrepo : confirmed_email email db =
        db.map (fun u => if u.email == email then { u with confirmed := true } else u) := rfl
    have he : user.email = email := get_user_by_email_eq email db user h
    rw [hrepo, hmap, h]
    simp [he]

theorem confirmed_email_contract_witness :
    confirmed_email_route
      (Token.signed SECRET_KEY (Payload.mk (some "a@b.c") [] (some 0) (some 100) none)) 0
      [User.mk 1 "alice" "a@b.c" "hash" none none false] =
      (Except.ok "Email confirmed",
        confirmed_email "a@b.c" [User.mk 1 "alice" "a@b.c" "hash" none none false]) :=
  ((confirmed_email_contract
      (Token.signed SECRET_KEY (Payload.mk (some "a@b.c") [] (some 0) (some 100) none)) 0
      [User.mk 1 "alice" "a@b.c" "hash" none none false] "a@b.c" rfl).2.2
    (User.mk 1 "alice" "a@b.c" "hash" none none false) rfl rfl).1

/-- C9: a refresh token that decodes successfully but whose subject has no
account makes the refresh route dereference `refresh_token` on `None` — an
uncaught `AttributeError`, which is not a controlled `401` HTTP failure of
any detail. -/
theorem refresh_missing_user_attribute_error (token : Token) (now : Int)
    (db : List User) (email : String)
    (hdec : decode_refresh_token token now = Except.ok email)
    (huser : get_user_by_email email db = none) :
    refresh_token_route token now db =
      (Except.error (Err.noneAttribute "refresh_token"), db) ∧
    ∀ d, Err.noneAttribute "refresh_token" ≠ Err.http 401 d := by
  constructor
  · simp [refresh_token_route, hdec, huser]
  · intro d
    simp

theorem refresh_missing_user_attribute_error_witness :
    refresh_token_route
      (Token.signed SECRET_KEY
        (Payload.mk (some "ghost@b.c") [] (some 0) (some 100) (some "refresh_token"))) 0
      [] =
      (Except.error (Err.noneAttribute "refresh_token"), []) :=
  (refresh_missing_user_attribute_error
      (Token.signed SECRET_KEY
        (Payload.mk (some "ghost@b.c") [] (some 0) (some 100) (some "refresh_token"))) 0
      [] "ghost@b.c" rfl rfl).1

/-- C10: the request-email route reads `confirmed` before checking existence,
so a request for an email with no account is an attribute access on `None` —
an uncaught `AttributeError` in place of either documented outcome
message. -/
theorem request_email_missing_user_attribute_error (email : String) (db : List User)
    (huser : get_user_by_email email db = none) :
    request_email_route email db = Except.error (Err.noneAttribute "confirmed") ∧
    ∀ msg sent, Except.error (Err.noneAttribute "confirmed") ≠
      (Except.ok (msg, sent) : Except Err (String × Bool)) := by
  constructor
  · simp [request_email_route, huser]
  · intro msg sent
    simp

theorem request_email_missing_user_attribute_error_witness :
    request_email_route "ghost@b.c" [] = Except.error (Err.noneAttribute "confirmed") :=
  (request_email_missing_user_attribute_error "ghost@b.c" [] rfl).1


/-- Lookup by email after a refresh-token update: the update applies to the
looked-up record. -/
theorem get_user_by_email_update_token (w : User) (tok : Option Token) (e : String)
    (db : List User) :
    get_user_by_email e (update_token w tok db) =
      (get_user_by_email e db).map
        (fun u => if u.email == w.email then { u with refresh_token := tok } else u) := by
  unfold update_token
  exact get_user_by_email_map _ (fun u => by split <;> rfl) e db

/-- The refresh token the refresh route mints for subject `email` at instant
`t`: `create_refresh_token({"sub": email})` with the default lifetime. -/
def mintedRefresh (email : String) (t : Int) : Token :=
  create_refresh_token (Payload.mk (some email) [] none none none) none t

/-- The access token the refresh route mints for subject `email` at instant
`t`. -/
def mintedAccess (email : String) (t : Int) : Token :=
  create_access_token (Payload.mk (some email) [] none none none) none t

/-- C1: refresh rotation with full-family revocation: when a stored refresh
token `rt1` is presented and the refresh succeeds, the route returns a new
pair whose refresh token `rt2` is persisted; presenting `rt1` again (still
decodable) then fails with `401 "Invalid refresh token"` and clears the
stored refresh token to `none`, after which presenting `rt2` at any later
instant also fails with a 401. -/
theorem refresh_rotation_revokes_family (p1 : Payload) (email : String) (user : User)
    (db : List User) (t1 t2 t3 : Int)
    (hsub : p1.sub = some email) (hscope : p1.scope = some "refresh_token")
    (hexp1 : expCheck p1 t1 = false) (hexp2 : expCheck p1 t2 = false)
    (huser : get_user_by_email email db = some user)
    (hstored : user.refresh_token = some (Token.signed SECRET_KEY p1))
    (hnew : mintedRefresh email t1 ≠ Token.signed SECRET_KEY p1) :
    refresh_token_route (Token.signed SECRET_KEY p1) t1 db =
      (Except.ok (mintedAccess email t1, mintedRefresh email t1),
       update_token user (some (mintedRefresh email t1)) db) ∧
    (refresh_token_route (Token.signed SECRET_KEY p1) t2
        (refresh_token_route (Token.signed SECRET_KEY p1) t1 db).2).1 =
      Except.error (Err.http 401 "Invalid refresh token") ∧
    (∃ u2,
      get_user_by_email email
        (refresh_token_route (Token.signed SECRET_KEY p1) t2
          (refresh_token_route (Token.signed SECRET_KEY p1) t1 db).2).2 = some u2 ∧
      u2.refresh_token = none) ∧
    (∃ d,
      (refresh_token_route (mintedRefresh email t1) t3
        (refresh_token_route (Token.signed SECRET_KEY p1) t2
          (refresh_token_route (Token.signed SECRET_KEY p1) t1 db).2).2).1 =
        Except.error (Err.http 401 d)) := by
  have hdec1 : decode_refresh_token (Token.signed SECRET_KEY p1) t1 = Except.ok email := by
    simp [decode_refresh_token, jwtDecode, hexp1, hscope, hsub]
  have hdec2 : decode_refresh_token (Token.signed SECRET_KEY p1) t2 = Except.ok email := by
    simp [decode_refresh_token, jwtDecode, hexp2, hscope, hsub]
  have hstep1 : refresh_token_route (Token.signed SECRET_KEY p1) t1 db =
      (Except.ok (mintedAccess email t1, mintedRefresh email t1),
       update_token user (some (mintedRefresh email t1)) db) := by
    simp [refresh_token_route, hdec1, huser, hstored, mintedAccess, mintedRefresh]
  have hdb1 : get_user_by_email email (update_token user (some (mintedRefresh email t1)) db) =
      some { user with refresh_token := some (mintedRefresh email t1) } := by
    rw [get_user_by_email_update_token, huser]
    simp
  have hstep2 : refresh_token_route (Token.signed SECRET_KEY p1) t2
      (update_token user (some (mintedRefresh email t1)) db) =
      (Except.error (Err.http 401 "Invalid refresh token"),
       update_token { user with refresh_token := some (mintedRefresh email t1) } none
         (update_token user (some (mintedRefresh email t1)) db)) := by
    simp [refresh_token_route, hdec2, hdb1, hnew]
  have hdb2 : get_user_by_email email
      (update_token { user with refresh_token := some (mintedRefresh email t1) } none
        (update_token user (some (mintedRefresh email t1)) db)) =
      some { user with refresh_token := none } := by
    rw [get_user_by_email_update_token, get_user_by_email_update_token, huser]
    simp
  refine ⟨hstep1, ?_, ?_, ?_⟩
  · rw [hstep1, hstep2]
  · rw [hstep1, hstep2]
    exact ⟨{ user with refresh_token := none }, hdb2, rfl⟩
  · rw [hstep1, hstep2]
    by_cases h3 : (t1 + 604800 : Int) < t3
    · refine ⟨"Could not validate credentials", ?_⟩
      have hdec3 : decode_refresh_token (mintedRefresh email t1) t3 =
          Except.error (Err.http 401 "Could not validate credentials") := by
        simp [decode_refresh_token, mintedRefresh, create_refresh_token, jwtDecode,
          expCheck, h3]
      simp [refresh_token_route, hdec3]
    · refine ⟨"Invalid refresh token", ?_⟩
      have hdec3 : decode_refresh_token (mintedRefresh email t1) t3 = Except.ok email := by
        simp [decode_refresh_token, mintedRefresh, create_refresh_token, jwtDecode,
          expCheck, h3]
      simp [refresh_token_route, hdec3, hdb2]

theorem refresh_rotation_revokes_family_witness :
    (refresh_token_route
      (Token.signed SECRET_KEY
        (Payload.mk (some "a@b.c") [] (some 0) (some 604800) (some "refresh_token"))) 2
      (refresh_token_route
        (Token.signed SECRET_KEY
          (Payload.mk (some "a@b.c") [] (some 0) (some 604800) (some "refresh_token"))) 1
        [User.mk 1 "alice" "a@b.c" "hash" none
          (some (Token.signed SECRET_KEY
            (Payload.mk (some "a@b.c") [] (some 0) (some 604800) (some "refresh_token"))))
          true]).2).1 =
      Except.error (Err.http 401 "Invalid refresh token") :=
  (refresh_rotation_revokes_family
    (Payload.mk (some "a@b.c") [] (some 0) (some 604800) (some "refresh_token"))
    "a@b.c"
    (User.mk 1 "alice" "a@b.c" "hash" none
      (some (Token.signed SECRET_KEY
        (Payload.mk (some "a@b.c") [] (some 0) (some 604800) (some "refresh_token"))))
      true)
    [User.mk 1 "alice" "a@b.c" "hash" none
      (some (Token.signed SECRET_KEY
        (Payload.mk (some "a@b.c") [] (some 0) (some 604800) (some "refresh_token"))))
      true]
    1 2 3 rfl rfl rfl rfl rfl rfl (by decide)).2.1
